import Mathlib

/-!
Shallow embedding of the schema module of `appdotbuilder/agentic-notes`
(`src/app/models.py`): entity records, their declared field constraints,
and the transfer shapes used at the API boundary, together with the
persistence-level operations (insert/update) that the schema's declared
primary-key, unique and foreign-key constraints induce.

Conventions of the embedding:
- Python `str` becomes `String`; `max_length=N` becomes `s.length ≤ N`.
- Python `float` becomes `ℚ` (the declared `ge`/`le` bounds are exact
  decimal constants, so rational arithmetic models the comparisons).
- Python `int` ids become `Nat`; signed ints (`limit`, `offset`) become `ℤ`.
- `datetime` timestamps become an abstract `Timestamp := Nat`; a
  `default_factory=datetime.utcnow` default is modelled by a constructor
  that receives the construction time `now` and stores it.
- `Dict[str, Any]` opaque JSON mappings become association lists
  `List (String × String)`; their only role in the schema is
  "defaults to the empty mapping", which `[]` models.
- Each model's declared field constraints are collected in a boolean
  `fieldsValid` predicate: a value constructs successfully iff its
  `fieldsValid` is `true`.
-/

namespace AgenticNotes

/-- Abstract timestamp (`datetime` in the source). -/
abbrev Timestamp := Nat

/-- Opaque JSON mapping (`Dict[str, Any]` in the source). -/
abbrev JsonMap := List (String × String)

/-- `max_length` check for an optional text field: `None` always passes. -/
def optLenLe (o : Option String) (n : Nat) : Bool :=
  match o with
  | none => true
  | some s => s.length ≤ n

/-- `AIOperationType(str, Enum)`: the four operation literals
(`src/app/models.py` lines 7-13). -/
inductive AIOperationType where
  | summarize
  | generate_ideas
  | suggest_connections
  | answer_question
deriving DecidableEq, Repr

/-- Enum lookup by value: a string is accepted as an `AIOperationType`
iff it equals one of the four member values. -/
def AIOperationType.ofString (s : String) : Option AIOperationType :=
  if s = "summarize" then some .summarize
  else if s = "generate_ideas" then some .generate_ideas
  else if s = "suggest_connections" then some .suggest_connections
  else if s = "answer_question" then some .answer_question
  else none

/-- `NoteStatus(str, Enum)`: the three status literals
(`src/app/models.py` lines 16-21). -/
inductive NoteStatus where
  | active
  | archived
  | deleted
deriving DecidableEq, Repr

/-- Enum lookup by value: a string is accepted as a `NoteStatus`
iff it equals one of the three member values. -/
def NoteStatus.ofString (s : String) : Option NoteStatus :=
  if s = "active" then some .active
  else if s = "archived" then some .archived
  else if s = "deleted" then some .deleted
  else none

/-- `NoteTag` association table: composite primary key
`(note_id, tag_id)` (`src/app/models.py` lines 25-31). -/
structure NoteTag where
  note_id : Nat
  tag_id : Nat
deriving DecidableEq, Repr

/-- `Folder` entity (`src/app/models.py` lines 35-52): `id` primary key,
`name` bounded text (no unique constraint declared), optional
`description`, optional self-referential `parent_id` foreign key,
timestamps defaulting to creation time. -/
structure Folder where
  id : Option Nat := none
  name : String
  description : Option String := none
  parent_id : Option Nat := none
  created_at : Timestamp
  updated_at : Timestamp
deriving DecidableEq, Repr

/-- Declared field constraints of `Folder`: `name` `max_length=255`,
`description` `max_length=1000`. -/
def Folder.fieldsValid (f : Folder) : Bool :=
  f.name.length ≤ 255 && optLenLe f.description 1000

/-- `Tag` entity (`src/app/models.py` lines 55-67): `name` has
`max_length=100` and `unique=True`; `color` defaults to `"#6366f1"` with
`max_length=7`; optional `description` with `max_length=500`. -/
structure Tag where
  id : Option Nat := none
  name : String
  color : Option String := some "#6366f1"
  description : Option String := none
  created_at : Timestamp
deriving DecidableEq, Repr

/-- Declared field constraints of `Tag`. -/
def Tag.fieldsValid (t : Tag) : Bool :=
  t.name.length ≤ 100 && optLenLe t.color 7 && optLenLe t.description 500

/-- `Note` entity (`src/app/models.py` lines 70-101): `title` has
`max_length=500`; `content`, `content_plain` default to `""`;
`status` defaults to `ACTIVE`; `is_favorite` defaults to `False`;
timestamps default to creation time; `word_count` defaults to `0`;
`note_metadata` defaults to the empty mapping. -/
structure Note where
  id : Option Nat := none
  title : String
  content : String := ""
  content_plain : String := ""
  folder_id : Option Nat := none
  status : NoteStatus := .active
  is_favorite : Bool := false
  created_at : Timestamp
  updated_at : Timestamp
  search_vector : Option String := none
  word_count : Nat := 0
  note_metadata : JsonMap := []
deriving DecidableEq, Repr

/-- Declared field constraints of `Note`: only `title` is
length-bounded (`max_length=500`). -/
def Note.fieldsValid (n : Note) : Bool :=
  n.title.length ≤ 500

/-- Construct a `Note` at time `now` supplying only the required `title`,
every other field taking its declared default. -/
def Note.mkDefault (now : Timestamp) (title : String) : Note :=
  { title := title, created_at := now, updated_at := now }

/-- `NoteConnection` entity (`src/app/models.py` lines 104-124): directed
edge between two notes; `connection_type` defaults to `"related"` with
`max_length=100`; `strength` defaults to `1.0` with bounds
`ge=0.0, le=1.0`; optional `description` with `max_length=500`;
`created_by_ai` defaults to `False`. -/
structure NoteConnection where
  id : Option Nat := none
  source_note_id : Nat
  target_note_id : Nat
  connection_type : String := "related"
  strength : ℚ := 1
  description : Option String := none
  created_at : Timestamp
  created_by_ai : Bool := false
deriving DecidableEq, Repr

/-- Declared field constraints of `NoteConnection`. -/
def NoteConnection.fieldsValid (c : NoteConnection) : Bool :=
  c.connection_type.length ≤ 100 && decide (0 ≤ c.strength)
    && decide (c.strength ≤ 1) && optLenLe c.description 500

/-- Construct a `NoteConnection` at time `now` supplying only the two
required note ids, every other field taking its declared default. -/
def NoteConnection.mkDefault (now : Timestamp) (src tgt : Nat) : NoteConnection :=
  { source_note_id := src, target_note_id := tgt, created_at := now }

/-- `AIOperation` entity (`src/app/models.py` lines 127-146): audit record
of one AI invocation; `input_data` and `result` default to the empty
mapping; `model_used` has `max_length=100`; `success` defaults to `True`;
`error_message` is optional unbounded text. -/
structure AIOperation where
  id : Option Nat := none
  note_id : Nat
  operation_type : AIOperationType
  input_data : JsonMap := []
  result : JsonMap := []
  prompt_used : Option String := none
  model_used : Option String := none
  tokens_used : Option Nat := none
  execution_time_ms : Option Nat := none
  created_at : Timestamp
  success : Bool := true
  error_message : Option String := none
deriving DecidableEq, Repr

/-- Declared field constraints of `AIOperation`: only `model_used` is
length-bounded (`max_length=100`). -/
def AIOperation.fieldsValid (a : AIOperation) : Bool :=
  optLenLe a.model_used 100

/-- Construct an `AIOperation` at time `now` supplying only the required
`note_id` and `operation_type`, every other field taking its declared
default. -/
def AIOperation.mkDefault (now : Timestamp) (nid : Nat)
    (op : AIOperationType) : AIOperation :=
  { note_id := nid, operation_type := op, created_at := now }

/-- `SearchQuery` entity (`src/app/models.py` lines 149-159): `query` has
`max_length=1000`; `results_count` defaults to `0`; `filters` defaults to
the empty mapping. -/
structure SearchQuery where
  id : Option Nat := none
  query : String
  results_count : Nat := 0
  execution_time_ms : Option Nat := none
  filters : JsonMap := []
  created_at : Timestamp
deriving DecidableEq, Repr

/-- Construct a `SearchQuery` at time `now` supplying only the required
`query`, every other field taking its declared default. -/
def SearchQuery.mkDefault (now : Timestamp) (q : String) : SearchQuery :=
  { query := q, created_at := now }

/-- `FolderCreate` transfer shape (`src/app/models.py` lines 163-168). -/
structure FolderCreate where
  name : String
  description : Option String := none
  parent_id : Option Nat := none
deriving DecidableEq, Repr

/-- Declared field constraints of `FolderCreate`. -/
def FolderCreate.fieldsValid (c : FolderCreate) : Bool :=
  c.name.length ≤ 255 && optLenLe c.description 1000

/-- `FolderUpdate` transfer shape (`src/app/models.py` lines 171-176):
every field optional, `None` meaning "leave unchanged". -/
structure FolderUpdate where
  name : Option String := none
  description : Option String := none
  parent_id : Option Nat := none
deriving DecidableEq, Repr

/-- Declared field constraints of `FolderUpdate`. -/
def FolderUpdate.fieldsValid (u : FolderUpdate) : Bool :=
  optLenLe u.name 255 && optLenLe u.description 1000

/-- `TagCreate` transfer shape (`src/app/models.py` lines 179-184). -/
structure TagCreate where
  name : String
  color : Option String := some "#6366f1"
  description : Option String := none
deriving DecidableEq, Repr

/-- Declared field constraints of `TagCreate`. -/
def TagCreate.fieldsValid (c : TagCreate) : Bool :=
  c.name.length ≤ 100 && optLenLe c.color 7 && optLenLe c.description 500

/-- `NoteCreate` transfer shape (`src/app/models.py` lines 195-201):
`tag_ids` defaults to the empty list. -/
structure NoteCreate where
  title : String
  content : String := ""
  folder_id : Option Nat := none
  tag_ids : List Nat := []
deriving DecidableEq, Repr

/-- Declared field constraints of `NoteCreate`: only `title` is
length-bounded (`max_length=500`). -/
def NoteCreate.fieldsValid (c : NoteCreate) : Bool :=
  c.title.length ≤ 500

/-- `NoteConnectionCreate` transfer shape (`src/app/models.py`
lines 215-222): `strength` defaults to `1.0` with bounds `ge=0.0, le=1.0`. -/
structure NoteConnectionCreate where
  source_note_id : Nat
  target_note_id : Nat
  connection_type : String := "related"
  strength : ℚ := 1
  description : Option String := none
deriving DecidableEq, Repr

/-- Declared field constraints of `NoteConnectionCreate`. -/
def NoteConnectionCreate.fieldsValid (c : NoteConnectionCreate) : Bool :=
  c.connection_type.length ≤ 100 && decide (0 ≤ c.strength)
    && decide (c.strength ≤ 1) && optLenLe c.description 500

/-- `SearchRequest` transfer shape (`src/app/models.py` lines 234-243):
`query` `max_length=1000`; `limit` defaults to `50` with `ge=1, le=1000`;
`offset` defaults to `0` with `ge=0`; `favorites_only` defaults to
`False`. -/
structure SearchRequest where
  query : String
  folder_ids : Option (List Nat) := none
  tag_ids : Option (List Nat) := none
  status : Option NoteStatus := none
  favorites_only : Bool := false
  limit : ℤ := 50
  offset : ℤ := 0
deriving DecidableEq, Repr

/-- Declared field constraints of `SearchRequest`. -/
def SearchRequest.fieldsValid (r : SearchRequest) : Bool :=
  r.query.length ≤ 1000 && decide (1 ≤ r.limit) && decide (r.limit ≤ 1000)
    && decide (0 ≤ r.offset)

/-- `NoteSearchResult` transfer shape (`src/app/models.py` lines 246-256):
`tags` defaults to the empty list, `relevance_score` to `0.0`. -/
structure NoteSearchResult where
  id : Nat
  title : String
  content_snippet : String
  folder_name : Option String := none
  tags : List String := []
  created_at : String
  updated_at : String
  relevance_score : ℚ := 0
deriving DecidableEq, Repr

/-!
## Persistence operations

The repository contains only the schema declarations; the write
operations that the API layer performs against them are external
(spec §1, §6). The operations below are modelled from the spec: they
enforce exactly the constraints that `src/app/models.py` declares
(field-level `fieldsValid`, the `unique=True` constraint on `Tag.name`,
the foreign keys, and the composite primary key of `note_tags`), and
nothing more.
-/

/-- `true` iff some folder in the database carries id `i`. -/
def folderExists (db : List Folder) (i : Nat) : Bool :=
  db.any fun f => f.id = some i

/-- `true` iff some note in the database carries id `i`. -/
def noteExists (db : List Note) (i : Nat) : Bool :=
  db.any fun n => n.id = some i

/-- Modelled from the spec: the persistence engine inserts a new `Tag`
from a `TagCreate`, enforcing the declared field constraints and the
`unique=True` constraint on `Tag.name` ("attempt to create a duplicate
must fail, not silently overwrite", spec §4.1); the insert fails
(returns `none`) on a constraint violation. New records are consed onto
the front of the database list; ids are assigned sequentially. -/
def createTag (db : List Tag) (c : TagCreate) (now : Timestamp) :
    Option (List Tag) :=
  if c.fieldsValid && !(db.any fun t => t.name = c.name) then
    some ({ id := some (db.length + 1), name := c.name, color := c.color,
            description := c.description, created_at := now } :: db)
  else none

/-- Modelled from the spec: the persistence engine inserts a new `Folder`
from a `FolderCreate`, enforcing the declared field constraints and the
`parent_id` foreign key (the parent, if given, must exist); no
name-uniqueness constraint is declared on `Folder`, so none is checked. -/
def createFolder (db : List Folder) (c : FolderCreate) (now : Timestamp) :
    Option (List Folder) :=
  if c.fieldsValid
      && (match c.parent_id with
          | none => true
          | some p => folderExists db p) then
    some ({ id := some (db.length + 1), name := c.name,
            description := c.description, parent_id := c.parent_id,
            created_at := now, updated_at := now } :: db)
  else none

/-- Apply a `FolderUpdate` to one folder record: a `none` field leaves
the stored value unchanged; `updated_at` is refreshed. -/
def Folder.applyUpdate (f : Folder) (u : FolderUpdate) (now : Timestamp) :
    Folder :=
  { f with
    name := u.name.getD f.name
    description := match u.description with
      | none => f.description
      | some d => some d
    parent_id := match u.parent_id with
      | none => f.parent_id
      | some p => some p
    updated_at := now }

/-- Modelled from the spec: the API layer updates folder `i` in place
from a `FolderUpdate` ("updated in place", spec §3), enforcing the
declared field constraints and the `parent_id` foreign key; no
acyclicity check is declared in the source schema, so none is performed
(spec §3, §9: "not enforced in source"). -/
def updateFolder (db : List Folder) (i : Nat) (u : FolderUpdate)
    (now : Timestamp) : Option (List Folder) :=
  if folderExists db i && u.fieldsValid
      && (match u.parent_id with
          | none => true
          | some p => folderExists db p) then
    some (db.map fun f => if f.id = some i then f.applyUpdate u now else f)
  else none

/-- One write operation against the folder table. -/
inductive FolderOp where
  | create (c : FolderCreate) (now : Timestamp)
  | update (i : Nat) (u : FolderUpdate) (now : Timestamp)
deriving DecidableEq, Repr

/-- Apply one folder operation. -/
def applyFolderOp (db : List Folder) : FolderOp → Option (List Folder)
  | .create c now => createFolder db c now
  | .update i u now => updateFolder db i u now

/-- Apply a sequence of folder operations, failing if any step fails. -/
def applyFolderOps (db : List Folder) : List FolderOp → Option (List Folder)
  | [] => some db
  | op :: rest =>
    match applyFolderOp db op with
    | none => none
    | some db2 => applyFolderOps db2 rest

/-- Apply a sequence of tag creations, failing if any step fails. -/
def applyTagCreates (db : List Tag) :
    List (TagCreate × Timestamp) → Option (List Tag)
  | [] => some db
  | (c, now) :: rest =>
    match createTag db c now with
    | none => none
    | some db2 => applyTagCreates db2 rest

/-- The parent id of folder `i` in the database, when folder `i` exists
and has a parent. -/
def parentOf (db : List Folder) (i : Nat) : Option Nat :=
  match db.find? (fun f => f.id = some i) with
  | none => none
  | some f => f.parent_id

/-- Follow `parent_id` references `k` times starting from folder id `i`. -/
def parentIter (db : List Folder) : Nat → Nat → Option Nat
  | 0, i => some i
  | k + 1, i =>
    match parentOf db i with
    | none => none
    | some p => parentIter db k p

/-- Modelled from the spec: the persistence engine inserts a `NoteTag`
association, enforcing the composite primary key on
`(note_id, tag_id)` declared in `src/app/models.py` lines 30-31: a
second record with the same pair is rejected. -/
def linkNoteTag (db : List NoteTag) (nid tid : Nat) :
    Option (List NoteTag) :=
  if db.any fun r => r.note_id = nid && r.tag_id = tid then none
  else some ({ note_id := nid, tag_id := tid } :: db)

/-- Apply a sequence of note-tag link operations, failing if any step
fails. -/
def applyLinks (db : List NoteTag) : List (Nat × Nat) → Option (List NoteTag)
  | [] => some db
  | (nid, tid) :: rest =>
    match linkNoteTag db nid tid with
    | none => none
    | some db2 => applyLinks db2 rest

/-- Modelled from the spec: the persistence engine inserts an
`AIOperation` record, enforcing the declared field constraints and the
`note_id` foreign key; no constraint relates `success`, `error_message`
or `result`, so a failure record persists like any other. -/
def insertAIOperation (notes : List Note) (db : List AIOperation)
    (a : AIOperation) : Option (List AIOperation) :=
  if a.fieldsValid && noteExists notes a.note_id then
    some ({ a with id := some (db.length + 1) } :: db)
  else none

/-- Construct an `AIOperation` recording a failed AI call: every field at
its declared default except `success := false` and the error text
(spec §8 scenario; `result` keeps its default empty mapping). -/
def AIOperation.mkFailure (now : Timestamp) (nid : Nat)
    (op : AIOperationType) (msg : String) : AIOperation :=
  { AIOperation.mkDefault now nid op with
    success := false, error_message := some msg }

/-- `true` iff every `parent_id` present in the database references an
existing folder (the declared foreign-key property of
`Folder.parent_id`). -/
def parentRefsValid (db : List Folder) : Bool :=
  db.all fun f =>
    match f.parent_id with
    | none => true
    | some p => folderExists db p

/-- Two folder creations with the same name: no uniqueness constraint is
declared on `Folder.name`, so both succeed. -/
def dupFolderOps : List FolderOp :=
  [.create { name := "A" } 0, .create { name := "A" } 1]

/-- Create folder 1, create folder 2 under folder 1, then move folder 1
under folder 2: every step satisfies every declared constraint, yet the
resulting parent graph is a 2-cycle. -/
def cycleFolderOps : List FolderOp :=
  [.create { name := "A" } 0,
   .create { name := "B", parent_id := some 1 } 1,
   .update 1 { parent_id := some 2 } 2]

/-- Referential-integrity property of `Folder.parent_id` as a `Prop`:
every parent reference present in the database names an existing folder. -/
def ParentFK (db : List Folder) : Prop :=
  ∀ f ∈ db, ∀ p, f.parent_id = some p → folderExists db p = true

/-- Sample connection-creation request used to instantiate theorems. -/
def sampleConnCreate : NoteConnectionCreate :=
  { source_note_id := 1, target_note_id := 2 }

/-- Sample stored connection used to instantiate theorems. -/
def sampleConn : NoteConnection := NoteConnection.mkDefault 5 1 2

/-- Sample search request used to instantiate theorems. -/
def sampleSearchRequest : SearchRequest := { query := "notes" }

/-- Sample note table holding one note with id 1. -/
def sampleNoteDB : List Note := [{ Note.mkDefault 0 "Plan" with id := some 1 }]

/-- Sample tag-creation sequence: one tag named `"work"`. -/
def sampleTagCreates : List (TagCreate × Timestamp) := [({ name := "work" }, 0)]

/-- The tag table produced by `sampleTagCreates`. -/
def sampleTagDB : List Tag := [{ id := some 1, name := "work", created_at := 0 }]

/-- Sample note-tag link sequence: note 1 linked to tags 2 and 3. -/
def sampleLinks : List (Nat × Nat) := [(1, 2), (1, 3)]

/-- The association table produced by `sampleLinks`. -/
def sampleNoteTagDB : List NoteTag :=
  [{ note_id := 1, tag_id := 3 }, { note_id := 1, tag_id := 2 }]

/-- Create folder 1, then folder 2 underneath it. -/
def fkFolderOps : List FolderOp :=
  [.create { name := "A" } 0, .create { name := "B", parent_id := some 1 } 1]

/-- The folder table produced by `fkFolderOps`. -/
def fkFolderDB : List Folder :=
  [{ id := some 2, name := "B", parent_id := some 1,
     created_at := 1, updated_at := 1 },
   { id := some 1, name := "A", created_at := 0, updated_at := 0 }]

/-!
## Helper lemmas
-/

theorem parentRefsValid_iff (db : List Folder) :
    parentRefsValid db = true ↔ ParentFK db := by
  unfold parentRefsValid ParentFK
  rw [List.all_eq_true]
  constructor
  · intro h f hf p hp
    have h2 := h f hf
    rw [hp] at h2
    exact h2
  · intro h f hf
    cases hpar : f.parent_id with
    | none => rfl
    | some p => exact h f hf p hpar

theorem folderExists_cons {db : List Folder} {p : Nat} (x : Folder)
    (h : folderExists db p = true) : folderExists (x :: db) p = true := by
  unfold folderExists at h ⊢
  rw [List.any_cons, h]
  simp

theorem createFolder_FK {db db2 : List Folder} {c : FolderCreate}
    {now : Timestamp} (h : createFolder db c now = some db2)
    (hfk : ParentFK db) : ParentFK db2 := by
  unfold createFolder at h
  by_cases hcond : (c.fieldsValid && match c.parent_id with
      | none => true
      | some p => folderExists db p) = true
  · rw [if_pos hcond] at h
    injection h with h2
    subst h2
    rw [Bool.and_eq_true] at hcond
    obtain ⟨hv, hpar⟩ := hcond
    intro f hf p hp
    rcases List.mem_cons.mp hf with rfl | hmem
    · have hp2 : c.parent_id = some p := hp
      rw [hp2] at hpar
      exact folderExists_cons _ hpar
    · exact folderExists_cons _ (hfk f hmem p hp)
  · rw [if_neg hcond] at h
    exact absurd h (by simp)

theorem applyUpdate_id (f : Folder) (u : FolderUpdate) (now : Timestamp) :
    (f.applyUpdate u now).id = f.id := rfl

theorem folderExists_map_update (db : List Folder) (i : Nat)
    (u : FolderUpdate) (now : Timestamp) (p : Nat) :
    folderExists
      (db.map fun f => if f.id = some i then f.applyUpdate u now else f) p
      = folderExists db p := by
  unfold folderExists
  rw [List.any_map]
  congr 1
  funext f
  by_cases h : f.id = some i
  · simp [Function.comp, h, applyUpdate_id]
  · simp [Function.comp, h]

theorem updateFolder_FK {db db2 : List Folder} {i : Nat} {u : FolderUpdate}
    {now : Timestamp} (h : updateFolder db i u now = some db2)
    (hfk : ParentFK db) : ParentFK db2 := by
  unfold updateFolder at h
  by_cases hcond : (folderExists db i && u.fieldsValid
      && match u.parent_id with
         | none => true
         | some p => folderExists db p) = true
  · rw [if_pos hcond] at h
    injection h with h2
    subst h2
    rw [Bool.and_eq_true] at hcond
    obtain ⟨hab, hpar⟩ := hcond
    intro f2 hf2 p hp
    rw [folderExists_map_update]
    obtain ⟨f, hf, rfl⟩ := List.mem_map.mp hf2
    by_cases hid : f.id = some i
    · rw [if_pos hid] at hp
      cases hu : u.parent_id with
      | none =>
        have hkeep : (f.applyUpdate u now).parent_id = f.parent_id := by
          simp [Folder.applyUpdate, hu]
        rw [hkeep] at hp
        exact hfk f hf p hp
      | some q =>
        have hset : (f.applyUpdate u now).parent_id = some q := by
          simp [Folder.applyUpdate, hu]
        rw [hset] at hp
        injection hp with hqp
        subst hqp
        rw [hu] at hpar
        exact hpar
    · rw [if_neg hid] at hp
      exact hfk f hf p hp
  · rw [if_neg hcond] at h
    exact absurd h (by simp)

theorem applyFolderOp_FK {db db2 : List Folder} {op : FolderOp}
    (h : applyFolderOp db op = some db2) (hfk : ParentFK db) :
    ParentFK db2 := by
  cases op with
  | create c now => exact createFolder_FK h hfk
  | update i u now => exact updateFolder_FK h hfk

theorem applyFolderOps_FK {ops : List FolderOp} {db db2 : List Folder}
    (h : applyFolderOps db ops = some db2) (hfk : ParentFK db) :
    ParentFK db2 := by
  induction ops generalizing db with
  | nil =>
    unfold applyFolderOps at h
    injection h with h2
    subst h2
    exact hfk
  | cons op rest ih =>
    unfold applyFolderOps at h
    cases hop : applyFolderOp db op with
    | none => rw [hop] at h; exact absurd h (by simp)
    | some dbm =>
      rw [hop] at h
      exact ih h (applyFolderOp_FK hop hfk)

theorem createTag_names_nodup {db db2 : List Tag} {c : TagCreate}
    {now : Timestamp} (h : createTag db c now = some db2)
    (hd : (db.map Tag.name).Nodup) : (db2.map Tag.name).Nodup := by
  unfold createTag at h
  by_cases hcond :
      (c.fieldsValid && !(db.any fun t => t.name = c.name)) = true
  · rw [if_pos hcond] at h
    injection h with h2
    subst h2
    rw [Bool.and_eq_true] at hcond
    obtain ⟨hv, hnot⟩ := hcond
    rw [List.map_cons, List.nodup_cons]
    refine ⟨?_, hd⟩
    intro hmem
    obtain ⟨t, ht, hname⟩ := List.mem_map.mp hmem
    have hname2 : t.name = c.name := hname
    have hany : (db.any fun t => t.name = c.name) = true := by
      rw [List.any_eq_true]
      exact ⟨t, ht, by simp [hname2]⟩
    rw [hany] at hnot
    simp at hnot
  · rw [if_neg hcond] at h
    exact absurd h (by simp)

theorem applyTagCreates_nodup {l : List (TagCreate × Timestamp)}
    {db db2 : List Tag} (h : applyTagCreates db l = some db2)
    (hd : (db.map Tag.name).Nodup) : (db2.map Tag.name).Nodup := by
  induction l generalizing db with
  | nil =>
    unfold applyTagCreates at h
    injection h with h2
    subst h2
    exact hd
  | cons p rest ih =>
    obtain ⟨c, now⟩ := p
    unfold applyTagCreates at h
    cases hc : createTag db c now with
    | none => rw [hc] at h; exact absurd h (by simp)
    | some dbm =>
      rw [hc] at h
      exact ih h (createTag_names_nodup hc hd)

theorem linkNoteTag_pairs_nodup {db db2 : List NoteTag} {nid tid : Nat}
    (h : linkNoteTag db nid tid = some db2)
    (hd : (db.map fun r => (r.note_id, r.tag_id)).Nodup) :
    (db2.map fun r => (r.note_id, r.tag_id)).Nodup := by
  unfold linkNoteTag at h
  by_cases hcond : (db.any fun r => r.note_id = nid && r.tag_id = tid) = true
  · rw [if_pos hcond] at h
    exact absurd h (by simp)
  · rw [if_neg hcond] at h
    injection h with h2
    subst h2
    rw [List.map_cons, List.nodup_cons]
    refine ⟨?_, hd⟩
    intro hmem
    obtain ⟨r, hr, hpair⟩ := List.mem_map.mp hmem
    apply hcond
    rw [List.any_eq_true]
    refine ⟨r, hr, ?_⟩
    simp only [Prod.mk.injEq] at hpair
    simp [hpair.1, hpair.2]

theorem applyLinks_pairs_nodup {l : List (Nat × Nat)} {db db2 : List NoteTag}
    (h : applyLinks db l = some db2)
    (hd : (db.map fun r => (r.note_id, r.tag_id)).Nodup) :
    (db2.map fun r => (r.note_id, r.tag_id)).Nodup := by
  induction l generalizing db with
  | nil =>
    unfold applyLinks at h
    injection h with h2
    subst h2
    exact hd
  | cons p rest ih =>
    obtain ⟨nid, tid⟩ := p
    unfold applyLinks at h
    cases hc : linkNoteTag db nid tid with
    | none => rw [hc] at h; exact absurd h (by simp)
    | some dbm =>
      rw [hc] at h
      exact ih h (linkNoteTag_pairs_nodup hc hd)

/-!
## Claim theorems
-/

/-- C1 (amended): `Tag.name` carries `unique=True`, so after any sequence
of tag-create operations no two stored tags share a name, and creating a
further tag with an already-used name is rejected; `Folder` declares no
name-uniqueness constraint (see the accompanying counterexample), so the
guarantee holds for tags only. -/
theorem tag_name_uniqueness (l : List (TagCreate × Timestamp))
    (db : List Tag) (c : TagCreate) (now : Timestamp)
    (h : applyTagCreates [] l = some db)
    (hdup : (db.any fun t => t.name = c.name) = true) :
    (db.map Tag.name).Nodup ∧ createTag db c now = none := by
  refine ⟨applyTagCreates_nodup h (by simp), ?_⟩
  unfold createTag
  rw [hdup]
  simp

/-- Witness for C1: one tag named `"work"` is created; the resulting
table has distinct names and a second `"work"` creation is rejected. -/
theorem tag_name_uniqueness_witness :
    (sampleTagDB.map Tag.name).Nodup ∧
    createTag sampleTagDB { name := "work" } 1 = none :=
  tag_name_uniqueness sampleTagCreates sampleTagDB { name := "work" } 1
    (by decide) (by decide)

/-- Counterexample for C1 as stated: `Folder.name` has no uniqueness
constraint, so two create operations with the same name `"A"` both
succeed and the reachable folder table holds two folders sharing a
name. -/
theorem folder_name_uniqueness_cex :
    (applyFolderOps [] dupFolderOps).isSome = true ∧
    ((applyFolderOps [] dupFolderOps).getD []).map Folder.name
      = ["A", "A"] ∧
    ¬ (((applyFolderOps [] dupFolderOps).getD []).map Folder.name).Nodup :=
  ⟨by decide, by decide, by decide⟩

/-- C2: for `NoteConnection` and `NoteConnectionCreate` values whose
other bounded fields conform, validation succeeds iff `strength` lies in
the closed interval `[0, 1]`; the boundary values `0` and `1` are
accepted exactly. -/
theorem strength_interval (c : NoteConnectionCreate) (n : NoteConnection)
    (hct : c.connection_type.length ≤ 100)
    (hcd : optLenLe c.description 500 = true)
    (hnt : n.connection_type.length ≤ 100)
    (hnd : optLenLe n.description 500 = true) :
    (c.fieldsValid = true ↔ 0 ≤ c.strength ∧ c.strength ≤ 1) ∧
    (n.fieldsValid = true ↔ 0 ≤ n.strength ∧ n.strength ≤ 1) ∧
    NoteConnectionCreate.fieldsValid { c with strength := 0 } = true ∧
    NoteConnectionCreate.fieldsValid { c with strength := 1 } = true ∧
    NoteConnection.fieldsValid { n with strength := 0 } = true ∧
    NoteConnection.fieldsValid { n with strength := 1 } = true := by
  unfold NoteConnectionCreate.fieldsValid NoteConnection.fieldsValid
  simp_all

/-- Witness for C2 at a concrete connection request and stored record. -/
theorem strength_interval_witness :
    (sampleConnCreate.fieldsValid = true ↔
      0 ≤ sampleConnCreate.strength ∧ sampleConnCreate.strength ≤ 1) ∧
    (sampleConn.fieldsValid = true ↔
      0 ≤ sampleConn.strength ∧ sampleConn.strength ≤ 1) ∧
    NoteConnectionCreate.fieldsValid
      { sampleConnCreate with strength := 0 } = true ∧
    NoteConnectionCreate.fieldsValid
      { sampleConnCreate with strength := 1 } = true ∧
    NoteConnection.fieldsValid { sampleConn with strength := 0 } = true ∧
    NoteConnection.fieldsValid { sampleConn with strength := 1 } = true :=
  strength_interval sampleConnCreate sampleConn (by decide) (by decide)
    (by decide) (by decide)

/-- C3: for a `SearchRequest` whose `query` conforms to its length bound,
validation succeeds iff `1 ≤ limit ≤ 1000` and `0 ≤ offset`; the
boundary limits `1` and `1000` are accepted, while `limit = 0`,
`limit = 1001` and `offset = -1` are rejected. -/
theorem search_request_bounds (r : SearchRequest)
    (hq : r.query.length ≤ 1000) :
    (r.fieldsValid = true ↔
      1 ≤ r.limit ∧ r.limit ≤ 1000 ∧ 0 ≤ r.offset) ∧
    ({ query := "", limit := 1 } : SearchRequest).fieldsValid = true ∧
    ({ query := "", limit := 1000 } : SearchRequest).fieldsValid = true ∧
    ({ query := "", limit := 0 } : SearchRequest).fieldsValid = false ∧
    ({ query := "", limit := 1001 } : SearchRequest).fieldsValid = false ∧
    ({ query := "", offset := -1 } : SearchRequest).fieldsValid = false := by
  unfold SearchRequest.fieldsValid
  refine ⟨?_, by decide, by decide, by decide, by decide, by decide⟩
  simp [hq, and_assoc]

/-- Witness for C3 at a concrete search request. -/
theorem search_request_bounds_witness :
    (sampleSearchRequest.fieldsValid = true ↔
      1 ≤ sampleSearchRequest.limit ∧ sampleSearchRequest.limit ≤ 1000 ∧
        0 ≤ sampleSearchRequest.offset) ∧
    ({ query := "", limit := 1 } : SearchRequest).fieldsValid = true ∧
    ({ query := "", limit := 1000 } : SearchRequest).fieldsValid = true ∧
    ({ query := "", limit := 0 } : SearchRequest).fieldsValid = false ∧
    ({ query := "", limit := 1001 } : SearchRequest).fieldsValid = false ∧
    ({ query := "", offset := -1 } : SearchRequest).fieldsValid = false :=
  search_request_bounds sampleSearchRequest (by decide)

/-- C4: a string is accepted as a `NoteStatus` iff it is one of the three
literals `active`, `archived`, `deleted`, and as an `AIOperationType` iff
it is one of the four literals `summarize`, `generate_ideas`,
`suggest_connections`, `answer_question`; every other string is
rejected. -/
theorem enum_values_exact (s : String) :
    ((NoteStatus.ofString s).isSome ↔
      s = "active" ∨ s = "archived" ∨ s = "deleted") ∧
    ((AIOperationType.ofString s).isSome ↔
      s = "summarize" ∨ s = "generate_ideas" ∨ s = "suggest_connections"
        ∨ s = "answer_question") := by
  constructor
  · unfold NoteStatus.ofString
    split_ifs with h1 h2 h3 <;> simp_all
  · unfold AIOperationType.ofString
    split_ifs with h1 h2 h3 h4 <;> simp_all

/-- C5 (amended): every folder table reachable by create and update
operations satisfies the declared `parent_id` foreign key (each parent
reference names an existing folder); acyclicity, however, is not
enforced by the schema — see the accompanying counterexample. -/
theorem folder_parent_fk (ops : List FolderOp) (db : List Folder)
    (h : applyFolderOps [] ops = some db) :
    parentRefsValid db = true := by
  rw [parentRefsValid_iff]
  refine applyFolderOps_FK h ?_
  intro f hf
  exact absurd hf (List.not_mem_nil f)

/-- Witness for C5: after creating folder `"A"` and folder `"B"` under
it, every parent reference in the table names an existing folder. -/
theorem folder_parent_fk_witness : parentRefsValid fkFolderDB = true :=
  folder_parent_fk fkFolderOps fkFolderDB (by decide)

/-- Counterexample for C5 as stated: creating folder 1, creating folder 2
under folder 1, then updating folder 1 to sit under folder 2 satisfies
every declared constraint, and in the resulting table following parent
references twice from folder 1 returns to folder 1 — a cycle is
reachable. -/
theorem folder_cycle_cex :
    (applyFolderOps [] cycleFolderOps).isSome = true ∧
    parentIter ((applyFolderOps [] cycleFolderOps).getD []) 2 1 = some 1 :=
  ⟨by decide, by decide⟩

/-- C6: constructed with only its required fields supplied, each shape
takes its declared defaults: `created_at`/`updated_at` equal the
construction time, booleans default to `false` except the `AIOperation`
success flag which defaults to `true`, the opaque mappings
(`note_metadata`, `input_data`, `result`, `filters`) default to the
empty mapping, and list-valued fields (`NoteCreate.tag_ids`,
`NoteSearchResult.tags`) default to the empty list. -/
theorem optional_field_defaults (now : Timestamp) (t q cs : String)
    (nid src tgt i : Nat) (op : AIOperationType) :
    (Note.mkDefault now t).created_at = now ∧
    (Note.mkDefault now t).updated_at = now ∧
    (Note.mkDefault now t).is_favorite = false ∧
    (Note.mkDefault now t).note_metadata = [] ∧
    (AIOperation.mkDefault now nid op).created_at = now ∧
    (AIOperation.mkDefault now nid op).success = true ∧
    (AIOperation.mkDefault now nid op).input_data = [] ∧
    (AIOperation.mkDefault now nid op).result = [] ∧
    (NoteConnection.mkDefault now src tgt).created_at = now ∧
    (NoteConnection.mkDefault now src tgt).created_by_ai = false ∧
    (SearchQuery.mkDefault now q).created_at = now ∧
    (SearchQuery.mkDefault now q).filters = [] ∧
    ({ title := t } : NoteCreate).tag_ids = [] ∧
    ({ query := q } : SearchRequest).favorites_only = false ∧
    ({ id := i, title := t, content_snippet := cs, created_at := "",
       updated_at := "" } : NoteSearchResult).tags = [] :=
  ⟨rfl, rfl, rfl, rfl, rfl, rfl, rfl, rfl, rfl, rfl, rfl, rfl, rfl, rfl,
    rfl⟩

/-- C7: an `AIOperation` recording a failed call (`success := false`,
non-empty `error_message`, empty `result`) satisfies every declared
constraint and inserts into any database whose note table contains the
referenced note; the failure is data, not an error of the schema
layer. -/
theorem ai_failure_persists (notes : List Note) (db : List AIOperation)
    (now : Timestamp) (nid : Nat) (op : AIOperationType) (msg : String)
    (_hmsg : msg ≠ "") (hnote : noteExists notes nid = true) :
    (AIOperation.mkFailure now nid op msg).fieldsValid = true ∧
    insertAIOperation notes db (AIOperation.mkFailure now nid op msg) =
      some ({ AIOperation.mkFailure now nid op msg with
              id := some (db.length + 1) } :: db) ∧
    (AIOperation.mkFailure now nid op msg).success = false ∧
    (AIOperation.mkFailure now nid op msg).result = [] := by
  refine ⟨rfl, ?_, rfl, rfl⟩
  unfold insertAIOperation
  simp [AIOperation.mkFailure, AIOperation.mkDefault,
    AIOperation.fieldsValid, optLenLe, hnote]

/-- Witness for C7: a failed summarize call against note 1 persists with
`success = false` and an empty result mapping. -/
theorem ai_failure_persists_witness :
    (AIOperation.mkFailure 3 1 .summarize "model timeout").fieldsValid
      = true ∧
    insertAIOperation sampleNoteDB []
        (AIOperation.mkFailure 3 1 .summarize "model timeout") =
      some [{ AIOperation.mkFailure 3 1 .summarize "model timeout" with
              id := some 1 }] ∧
    (AIOperation.mkFailure 3 1 .summarize "model timeout").success
      = false ∧
    (AIOperation.mkFailure 3 1 .summarize "model timeout").result = [] :=
  ai_failure_persists sampleNoteDB [] 3 1 .summarize "model timeout"
    (by decide) (by decide)

/-- C8: after any sequence of note-tag link operations, the stored
`(note_id, tag_id)` pairs are pairwise distinct, and linking a pair that
is already present is rejected rather than creating a second record. -/
theorem note_tag_pair_uniqueness (l : List (Nat × Nat)) (db : List NoteTag)
    (nid tid : Nat) (h : applyLinks [] l = some db)
    (hdup : (db.any fun r => r.note_id = nid && r.tag_id = tid) = true) :
    (db.map fun r => (r.note_id, r.tag_id)).Nodup ∧
    linkNoteTag db nid tid = none := by
  refine ⟨applyLinks_pairs_nodup h (by simp), ?_⟩
  unfold linkNoteTag
  rw [if_pos hdup]

/-- Witness for C8: linking note 1 to tags 2 and 3 yields distinct
pairs, and linking note 1 to tag 2 a second time is rejected. -/
theorem note_tag_pair_uniqueness_witness :
    (sampleNoteTagDB.map fun r => (r.note_id, r.tag_id)).Nodup ∧
    linkNoteTag sampleNoteTagDB 1 2 = none :=
  note_tag_pair_uniqueness sampleLinks sampleNoteTagDB 1 2 (by decide)
    (by decide)

set_option maxRecDepth 8192 in
/-- C9: a `Note` or `NoteCreate` is accepted iff its title has at most
500 characters; the empty title is accepted (no minimum) and a 501
character title is rejected. -/
theorem title_length_bound (n : Note) (c : NoteCreate) :
    (n.fieldsValid = true ↔ n.title.length ≤ 500) ∧
    (c.fieldsValid = true ↔ c.title.length ≤ 500) ∧
    (Note.mkDefault 0 "").fieldsValid = true ∧
    ({ title := "" } : NoteCreate).fieldsValid = true ∧
    (Note.mkDefault 0 (String.mk (List.replicate 501 'a'))).fieldsValid
      = false ∧
    ({ title := String.mk (List.replicate 501 'a') } :
      NoteCreate).fieldsValid = false := by
  refine ⟨?_, ?_, by decide, by decide, by decide, by decide⟩
  · simp [Note.fieldsValid]
  · simp [NoteCreate.fieldsValid]

/-- C10: no declared constraint relates `source_note_id` and
`target_note_id`: any connection or connection request that validates
still validates after its target is replaced by its source, and the
concrete self-loop `7 → 7` is accepted. -/
theorem self_loop_accepted (c : NoteConnectionCreate) (n : NoteConnection)
    (hc : c.fieldsValid = true) (hn : n.fieldsValid = true) :
    NoteConnectionCreate.fieldsValid
      { c with target_note_id := c.source_note_id } = true ∧
    NoteConnection.fieldsValid
      { n with target_note_id := n.source_note_id } = true ∧
    ({ source_note_id := 7, target_note_id := 7 } :
      NoteConnectionCreate).fieldsValid = true ∧
    (NoteConnection.mkDefault 0 7 7).fieldsValid = true := by
  refine ⟨?_, ?_, by decide, by decide⟩
  · simpa [NoteConnectionCreate.fieldsValid] using hc
  · simpa [NoteConnection.fieldsValid] using hn

/-- Witness for C10: a valid connection request and stored connection
remain valid with their target replaced by their source. -/
theorem self_loop_accepted_witness :
    NoteConnectionCreate.fieldsValid
      { sampleConnCreate with
        target_note_id := sampleConnCreate.source_note_id } = true ∧
    NoteConnection.fieldsValid
      { sampleConn with target_note_id := sampleConn.source_note_id }
      = true ∧
    ({ source_note_id := 7, target_note_id := 7 } :
      NoteConnectionCreate).fieldsValid = true ∧
    (NoteConnection.mkDefault 0 7 7).fieldsValid = true :=
  self_loop_accepted sampleConnCreate sampleConn (by decide) (by decide)

end AgenticNotes
